import Mathlib

/-!
Verification of the AR virtual-desktop core (paperli/desktop).

Shallow embedding of the JavaScript sources into Lean 4:
* numeric values are modelled as `ℚ` where the code only adds, multiplies,
  divides and compares (the `Math.sqrt d < t` comparisons with `d, t ≥ 0` are
  modelled by the equivalent `d^2 < t^2` squared comparison), and as `ℝ`
  where genuine square roots / trigonometry flow into the results;
* `Math.random()` streams are modelled as explicitly passed draw streams,
  each draw lying in `[0,1)`;
* stateful classes become explicit state records with transition functions.
-/

namespace ARDesktop

/-! ## Constants (src/config/constants.js) -/

def SPAWN_MIN_PLATES : ℕ := 5
def SPAWN_MAX_PLATES : ℕ := 8
def SPAWN_MIN_SPACING : ℚ := 10/100
def SPAWN_INITIAL_HEIGHT : ℚ := 15/100

noncomputable def INTERACTION_MAX_THROW_VELOCITY : ℝ := 8
def INTERACTION_TAP_THRESHOLD : ℚ := 10
def INTERACTION_SWIPE_THRESHOLD : ℚ := 50

noncomputable def DESKTOP_MIN_SIZE : ℝ := 4/10
noncomputable def DESKTOP_MAX_SIZE : ℝ := 2
def DESKTOP_THICKNESS : ℚ := 2/100
def DESKTOP_WALL_HEIGHT : ℚ := 15/100

/-! ## GeometryMath (src/utils/MathUtils.js) -/

/-- A 2-D touch sample `{x, y, time}` (time in milliseconds). -/
structure TouchPoint where
  x : ℚ
  y : ℚ
  time : ℚ
deriving DecidableEq, Repr

/-- `calculateVelocity(touchHistory)` from src/utils/MathUtils.js:
first/last sample over the whole history, divided by elapsed seconds;
returns zero on fewer than 2 samples or zero elapsed time. -/
def calculateVelocity (touchHistory : List TouchPoint) : ℚ × ℚ :=
  if touchHistory.length < 2 then (0, 0)
  else
    match touchHistory.getLast?, touchHistory.head? with
    | some last, some first =>
      let timeDelta := (last.time - first.time) / 1000
      if timeDelta = 0 then (0, 0)
      else ((last.x - first.x) / timeDelta, (last.y - first.y) / timeDelta)
    | _, _ => (0, 0)

/-- A 3-D position sample `{x, y, z, time}` (time in milliseconds). -/
structure PosSample where
  x : ℚ
  y : ℚ
  z : ℚ
  time : ℚ
deriving DecidableEq, Repr

/-- The return record of `calculateVelocity3D`: velocity components and the
reported speed (`Math.sqrt` of the squared norm, hence a real number). -/
structure Velocity3D where
  x : ℚ
  y : ℚ
  z : ℚ
  speed : ℝ

/-- The body of `calculateVelocity3D` applied to the selected recent window:
first and last sample of the window, divided by elapsed seconds, zero when
the elapsed time is zero. -/
noncomputable def velocityFromWindow (recentHistory : List PosSample) : Velocity3D :=
  match recentHistory.getLast?, recentHistory.head? with
  | some last, some first =>
    let timeDelta := (last.time - first.time) / 1000
    if timeDelta = 0 then ⟨0, 0, 0, 0⟩
    else
      let vx := (last.x - first.x) / timeDelta
      let vy := (last.y - first.y) / timeDelta
      let vz := (last.z - first.z) / timeDelta
      ⟨vx, vy, vz, Real.sqrt ((vx * vx + vy * vy + vz * vz : ℚ) : ℝ)⟩
  | _, _ => ⟨0, 0, 0, 0⟩

/-- `calculateVelocity3D(positionHistory)` from src/utils/MathUtils.js:
uses only the last `sampleCount = min(5, length)` samples
(`slice(-sampleCount)`), returns zero on fewer than 2 samples or zero elapsed
time. -/
noncomputable def calculateVelocity3D (positionHistory : List PosSample) : Velocity3D :=
  if positionHistory.length < 2 then ⟨0, 0, 0, 0⟩
  else
    velocityFromWindow
      (positionHistory.drop (positionHistory.length - min 5 positionHistory.length))

/-- Rectangular 2-D bounds `{minX, maxX, minZ, maxZ}`. -/
structure Bounds2 where
  minX : ℚ
  maxX : ℚ
  minZ : ℚ
  maxZ : ℚ
deriving DecidableEq, Repr

/-- `THREE.MathUtils.randFloat(lo, hi)` with the uniform draw `r ∈ [0,1)`
made explicit: `lo + r * (hi - lo)`. -/
def randFloat (lo hi r : ℚ) : ℚ := lo + r * (hi - lo)

/-- The overlap test inside `generateNonOverlappingPosition`: the candidate is
valid when no existing position is closer than `minSpacing`
(`Math.sqrt(dx² + dz²) < minSpacing` is modelled by the equivalent squared
comparison, both sides being nonnegative). -/
def isValidCandidate (existingPositions : List (ℚ × ℚ)) (minSpacing x z : ℚ) : Bool :=
  existingPositions.all fun pos =>
    ! ((x - pos.1) ^ 2 + (z - pos.2) ^ 2 < minSpacing ^ 2)

/-- `generateNonOverlappingPosition(existingPositions, bounds, minSpacing,
maxAttempts)` from src/utils/MathUtils.js: up to `maxAttempts` uniform draws
inside `bounds`, returning the first candidate far enough from every existing
position, else `null`.  The stream `draws` supplies the pair of `Math.random`
values of each attempt. -/
def generateNonOverlappingPosition (existingPositions : List (ℚ × ℚ)) (bounds : Bounds2)
    (minSpacing : ℚ) (draws : ℕ → ℚ × ℚ) : ℕ → Option (ℚ × ℚ)
  | 0 => none
  | maxAttempts + 1 =>
    let r := draws 0
    let x := randFloat bounds.minX bounds.maxX r.1
    let z := randFloat bounds.minZ bounds.maxZ r.2
    if isValidCandidate existingPositions minSpacing x z then some (x, z)
    else generateNonOverlappingPosition existingPositions bounds minSpacing
      (fun i => draws (i + 1)) maxAttempts

/-! ## SurfaceDetector filtering (src/ar/SurfaceDetector.js) -/

/-- A polygon vertex (`DOMPointReadOnly`) of a detected plane. -/
structure PlanePoint where
  x : ℚ
  y : ℚ
  z : ℚ
deriving DecidableEq, Repr

instance : Inhabited PlanePoint := ⟨⟨0, 0, 0⟩⟩

/-- One summand of the shoelace loop in `_calculatePolygonArea`
(`polygon[i].x * polygon[j].z - polygon[j].x * polygon[i].z`, `j = (i+1) % n`). -/
def shoelaceTerm (polygon : List PlanePoint) (i : ℕ) : ℚ :=
  let j := (i + 1) % polygon.length
  (polygon.getD i default).x * (polygon.getD j default).z -
    (polygon.getD j default).x * (polygon.getD i default).z

/-- `SurfaceDetector._calculatePolygonArea(polygon)`: zero for fewer than 3
vertices, else half the absolute shoelace sum. -/
def calculatePolygonArea (polygon : List PlanePoint) : ℚ :=
  if polygon.length < 3 then 0
  else |((List.range polygon.length).foldl (fun acc i => acc + shoelaceTerm polygon i) 0) / 2|

/-- The accept/reject decision of `SurfaceDetector.update` for a plane that is
`horizontal` and has a valid pose this frame: reject when `height > 2.0`;
else, when `height < 0.5` and a polygon is present whose area exceeds `3.0`,
reject; otherwise the plane becomes a visualized selectable candidate. -/
def surfaceAccepted (height : ℚ) (polygon : Option (List PlanePoint)) : Bool :=
  if 2 < height then false
  else if height < 1/2 then
    match polygon with
    | some poly => if 3 < calculatePolygonArea poly then false else true
    | none => true
  else true

/-- The polygon area the filter consults (`0` when no polygon is reported). -/
def reportedArea (polygon : Option (List PlanePoint)) : ℚ :=
  match polygon with
  | some poly => calculatePolygonArea poly
  | none => 0

/-! ## TouchHandler release classification (src/interaction/TouchHandler.js) -/

/-- The three branches of `_onTouchEnd`. -/
inductive ReleaseGesture where
  | tap
  | throwGesture
  | dragRelease
deriving DecidableEq, Repr

/-- `TouchHandler._onTouchEnd` gesture classification: displacement between
`touchStartPos` and the last history sample, compared against
`TAP_THRESHOLD = 10` and `SWIPE_THRESHOLD = 50` pixels
(`Math.sqrt(dx² + dy²) < t` modelled by the equivalent squared comparison). -/
def classifyRelease (touchStartPos : TouchPoint) (touchHistory : List TouchPoint) :
    ReleaseGesture :=
  let lastTouch := touchHistory.getLastD touchStartPos
  let dx := lastTouch.x - touchStartPos.x
  let dy := lastTouch.y - touchStartPos.y
  if dx ^ 2 + dy ^ 2 < INTERACTION_TAP_THRESHOLD ^ 2 then .tap
  else if INTERACTION_SWIPE_THRESHOLD ^ 2 < dx ^ 2 + dy ^ 2 then .throwGesture
  else .dragRelease

/-! ## Plate kinematic toggling (src/objects/Plate.js and the revised Plate in
src/unnamed/part_005) -/

/-- The `CANNON.Body.type` values the Plate code uses. -/
inductive BodyType where
  | dynamic
  | kinematic
  | staticBody
deriving DecidableEq, Repr

/-- A rational 3-vector (velocities and positions where no square root flows
into the state). -/
structure Vec3Q where
  x : ℚ
  y : ℚ
  z : ℚ
deriving DecidableEq, Repr

instance : OfNat Vec3Q 0 := ⟨⟨0, 0, 0⟩⟩

/-- The slice of a Plate's `CANNON.Body` state that `setKinematic` touches,
plus the Plate's own `isDragging` flag. -/
structure PlateKinState where
  isDragging : Bool
  btype : BodyType
  velocity : Vec3Q
  angularVelocity : Vec3Q
  collisionResponse : Bool
deriving DecidableEq, Repr

/-- A freshly constructed Plate body: `CANNON.Body` is created dynamic (mass
0.3) and with collision response enabled (the default in src/objects/Plate.js;
passed explicitly as `collisionResponse: true` in src/unnamed/part_005). -/
def initPlateKinState : PlateKinState :=
  { isDragging := false
    btype := .dynamic
    velocity := 0
    angularVelocity := 0
    collisionResponse := true }

/-- `Plate.setKinematic(kinematic)` as written in src/src/objects/Plate.js:
switches the body type and zeroes the velocities on entry; the body's
`collisionResponse` flag is never touched. -/
def setKinematicPlateJs (kinematic : Bool) (p : PlateKinState) : PlateKinState :=
  if kinematic then
    { p with isDragging := true, btype := .kinematic, velocity := 0, angularVelocity := 0 }
  else
    { p with isDragging := false, btype := .dynamic }

/-- `Plate.setKinematic(kinematic)` as written in src/unnamed/part_005:
on entry it additionally sets `collisionResponse = false` ("Don't push other
objects"); on exit it restores `collisionResponse = true`. -/
def setKinematicPart005 (kinematic : Bool) (p : PlateKinState) : PlateKinState :=
  if kinematic then
    { p with isDragging := true, btype := .kinematic, velocity := 0, angularVelocity := 0,
             collisionResponse := false }
  else
    { p with isDragging := false, btype := .dynamic, collisionResponse := true }

/-! ## PhysicsWorld desktop boundaries (src/physics/PhysicsWorld.js) -/

/-- Desktop bounds as consumed by `setupDesktopBoundaries` (the geometric
fields it reads; the quaternion is analysed separately with the placer). -/
structure DeskBounds where
  width : ℚ
  depth : ℚ
  posX : ℚ
  posY : ℚ
  posZ : ℚ
deriving DecidableEq, Repr

/-- The size/position data of one static boundary body (half extents of its
`CANNON.Box` shape and its world position, before the shared desktop
orientation is applied). -/
structure BodySpec where
  halfW : ℚ
  halfH : ℚ
  halfD : ℚ
  posX : ℚ
  posY : ℚ
  posZ : ℚ
deriving DecidableEq, Repr

/-- The floor body built by `setupDesktopBoundaries`: a static box of half
extents `(width/2, THICKNESS/2, depth/2)` at the bounds position. -/
def floorSpec (bounds : DeskBounds) : BodySpec :=
  { halfW := bounds.width / 2
    halfH := DESKTOP_THICKNESS / 2
    halfD := bounds.depth / 2
    posX := bounds.posX
    posY := bounds.posY
    posZ := bounds.posZ }

/-- The four wall bodies (left, right, front, back) of
`setupDesktopBoundaries`: thickness 0.05, height `WALL_HEIGHT`, positioned at
the bounds edges, `wallHeight/2 + THICKNESS` above the bounds position. -/
def wallSpecs (bounds : DeskBounds) : List BodySpec :=
  let wallThickness : ℚ := 5/100
  let wallY := bounds.posY + DESKTOP_WALL_HEIGHT / 2 + DESKTOP_THICKNESS
  [ { halfW := wallThickness / 2, halfH := DESKTOP_WALL_HEIGHT / 2, halfD := bounds.depth / 2,
      posX := bounds.posX - bounds.width / 2, posY := wallY, posZ := bounds.posZ },
    { halfW := wallThickness / 2, halfH := DESKTOP_WALL_HEIGHT / 2, halfD := bounds.depth / 2,
      posX := bounds.posX + bounds.width / 2, posY := wallY, posZ := bounds.posZ },
    { halfW := bounds.width / 2, halfH := DESKTOP_WALL_HEIGHT / 2, halfD := wallThickness / 2,
      posX := bounds.posX, posY := wallY, posZ := bounds.posZ - bounds.depth / 2 },
    { halfW := bounds.width / 2, halfH := DESKTOP_WALL_HEIGHT / 2, halfD := wallThickness / 2,
      posX := bounds.posX, posY := wallY, posZ := bounds.posZ + bounds.depth / 2 } ]

/-- All five boundary bodies one call creates: the floor followed by the four
walls, in creation order. -/
def boundarySpecs (bounds : DeskBounds) : List BodySpec :=
  floorSpec bounds :: wallSpecs bounds

/-- One body living in the physics world: its identity (handle), the index of
the `setupDesktopBoundaries` call that created it, and its spec. -/
structure WorldBody where
  id : ℕ
  createdAt : ℕ
  spec : BodySpec
deriving DecidableEq, Repr

/-- The slice of `PhysicsWorld` state that `setupDesktopBoundaries` touches:
the world's body list, the `desktopBodies` bookkeeping list (ids), a fresh-id
counter for newly constructed `CANNON.Body` objects, and how many boundary
setups have run. -/
structure PWState where
  worldBodies : List WorldBody
  desktopBodies : List ℕ
  nextId : ℕ
  callCount : ℕ
deriving DecidableEq, Repr

/-- `PhysicsWorld` right after `_initialize()`: no bodies. -/
def initPWState : PWState :=
  { worldBodies := [], desktopBodies := [], nextId := 0, callCount := 0 }

/-- `PhysicsWorld.setupDesktopBoundaries(bounds)`: removes every body listed
in `desktopBodies` from the world, clears the list, then creates the floor and
the four walls, adding each to the world and to `desktopBodies`. -/
def setupDesktopBoundaries (s : PWState) (bounds : DeskBounds) : PWState :=
  let remaining := s.worldBodies.filter fun b => b.id ∉ s.desktopBodies
  let newBodies := (boundarySpecs bounds).enum.map fun (i, spec) =>
    WorldBody.mk (s.nextId + i) s.callCount spec
  { worldBodies := remaining ++ newBodies
    desktopBodies := newBodies.map (·.id)
    nextId := s.nextId + (boundarySpecs bounds).length
    callCount := s.callCount + 1 }

/-! ## PlateSpawner (src/objects/PlateSpawner.js) -/

/-- The bounds fields `spawnPlates` reads from the placer's DesktopBounds. -/
structure SpawnBounds where
  minX : ℚ
  maxX : ℚ
  minZ : ℚ
  maxZ : ℚ
  posX : ℚ
  posZ : ℚ
  centerY : ℚ
deriving DecidableEq, Repr

/-- The edge padding `spawnPlates` applies to the desktop bounds before
drawing positions (`± 0.1`). -/
def paddedBounds (desktopBounds : SpawnBounds) : Bounds2 :=
  { minX := desktopBounds.minX + 1/10
    maxX := desktopBounds.maxX - 1/10
    minZ := desktopBounds.minZ + 1/10
    maxZ := desktopBounds.maxZ - 1/10 }

/-- The random plate count of `spawnPlates`:
`Math.floor(Math.random() * (MAX_PLATES - MIN_PLATES + 1) + MIN_PLATES)`
with the uniform draw `r` made explicit. -/
def plateCount (r : ℚ) : ℤ :=
  ⌊r * ((SPAWN_MAX_PLATES : ℚ) - (SPAWN_MIN_PLATES : ℚ) + 1) + (SPAWN_MIN_PLATES : ℚ)⌋

/-- The spawn loop of `spawnPlates`: for each of `n` plates, try to generate a
non-overlapping 2-D position (50 attempts); on success append it to the
accumulated list, on failure skip that plate.  `attemptDraws i j` supplies the
`Math.random` pair of attempt `j` for loop iteration `i`. -/
def spawnLoop (bounds : Bounds2) (attemptDraws : ℕ → ℕ → ℚ × ℚ) :
    ℕ → List (ℚ × ℚ) → List (ℚ × ℚ)
  | 0, positions => positions
  | n + 1, positions =>
    let positions' :=
      match generateNonOverlappingPosition positions bounds SPAWN_MIN_SPACING
          (attemptDraws 0) 50 with
      | some p => positions ++ [p]
      | none => positions
    spawnLoop bounds (fun i => attemptDraws (i + 1)) n positions'

/-- `PlateSpawner.spawnPlates(desktopBounds)`: draws the plate count, then
generates the (local, desktop-relative) 2-D positions of the plates actually
spawned.  `countDraw` is the `Math.random` value of the count;
`attemptDraws` the per-plate per-attempt position draws. -/
def spawnPlatesPositions (desktopBounds : SpawnBounds) (countDraw : ℚ)
    (attemptDraws : ℕ → ℕ → ℚ × ℚ) : List (ℚ × ℚ) :=
  spawnLoop (paddedBounds desktopBounds) attemptDraws (plateCount countDraw).toNat []

/-- The world-space spawn position of a plate given its generated 2-D
position: offset from the desktop position, `INITIAL_HEIGHT` above
`centerY`. -/
def spawnWorldPosition (desktopBounds : SpawnBounds) (position2D : ℚ × ℚ) : Vec3Q :=
  { x := desktopBounds.posX + position2D.1
    y := desktopBounds.centerY + SPAWN_INITIAL_HEIGHT
    z := desktopBounds.posZ + position2D.2 }

/-! ## Real vectors and quaternions (three.js math used by DesktopPlacer,
Plate.update and ThrowController) -/

/-- A real 3-vector. -/
structure Vec3R where
  x : ℝ
  y : ℝ
  z : ℝ

/-- `THREE.Vector3.length()`. -/
noncomputable def length3 (v : Vec3R) : ℝ := Real.sqrt (v.x ^ 2 + v.y ^ 2 + v.z ^ 2)

/-- A three.js quaternion `(x, y, z, w)`. -/
structure Quat where
  x : ℝ
  y : ℝ
  z : ℝ
  w : ℝ

/-- `Math.atan2(y, x)`, modelled as the argument of the complex number
`x + y·i` (both agree on every input, including `atan2 0 0 = 0`). -/
noncomputable def atan2 (y x : ℝ) : ℝ := Complex.arg ⟨x, y⟩

/-- `THREE.MathUtils.clamp(value, min, max)`. -/
noncomputable def clampR (value lo hi : ℝ) : ℝ := max lo (min hi value)

/-- Entries of `THREE.Matrix4.makeRotationFromQuaternion` (row `i`, column
`j`), as read by `Euler.setFromRotationMatrix`. -/
noncomputable def m11 (q : Quat) : ℝ := 1 - 2 * (q.y ^ 2 + q.z ^ 2)
noncomputable def m13 (q : Quat) : ℝ := 2 * (q.x * q.z + q.w * q.y)
noncomputable def m21 (q : Quat) : ℝ := 2 * (q.x * q.y + q.w * q.z)
noncomputable def m22 (q : Quat) : ℝ := 1 - 2 * (q.x ^ 2 + q.z ^ 2)
noncomputable def m23 (q : Quat) : ℝ := 2 * (q.y * q.z - q.w * q.x)
noncomputable def m31 (q : Quat) : ℝ := 2 * (q.x * q.z - q.w * q.y)
noncomputable def m33 (q : Quat) : ℝ := 1 - 2 * (q.x ^ 2 + q.y ^ 2)

/-- The pitch (`_x`) of `THREE.Euler.setFromQuaternion(q, 'YXZ')`:
`asin(-clamp(m23, -1, 1))`. -/
noncomputable def eulerYXZ_x (q : Quat) : ℝ :=
  Real.arcsin (-(clampR (m23 q) (-1) 1))

/-- The yaw (`_y`) of `THREE.Euler.setFromQuaternion(q, 'YXZ')`:
`atan2(m13, m33)` away from gimbal lock, else `atan2(-m31, m11)`. -/
noncomputable def eulerYXZ_y (q : Quat) : ℝ :=
  if |m23 q| < 0.9999999 then atan2 (m13 q) (m33 q)
  else atan2 (-(m31 q)) (m11 q)

/-- The roll (`_z`) of `THREE.Euler.setFromQuaternion(q, 'YXZ')`:
`atan2(m21, m22)` away from gimbal lock, else `0`. -/
noncomputable def eulerYXZ_z (q : Quat) : ℝ :=
  if |m23 q| < 0.9999999 then atan2 (m21 q) (m22 q)
  else 0

/-- `THREE.Quaternion.setFromEuler(new Euler(x, y, z, 'YXZ'))`. -/
noncomputable def quatFromEulerYXZ (ex ey ez : ℝ) : Quat :=
  let c1 := Real.cos (ex / 2)
  let c2 := Real.cos (ey / 2)
  let c3 := Real.cos (ez / 2)
  let s1 := Real.sin (ex / 2)
  let s2 := Real.sin (ey / 2)
  let s3 := Real.sin (ez / 2)
  { x := s1 * c2 * c3 + c1 * s2 * s3
    y := c1 * s2 * c3 - s1 * c2 * s3
    z := c1 * c2 * s3 - s1 * s2 * c3
    w := c1 * c2 * c3 + s1 * s2 * s3 }

/-! ## DesktopPlacer (src/ar/DesktopPlacer.js) -/

/-- The leveling step of `DesktopPlacer._createDesktop`: decompose the
detected orientation as YXZ Euler angles, keep only the yaw, rebuild the
quaternion from `(0, yaw, 0)`. -/
noncomputable def forceHorizontalOrientation (orientation : Quat) : Quat :=
  quatFromEulerYXZ 0 (eulerYXZ_y orientation) 0

/-- The DesktopBounds record `_createDesktop` commits. -/
structure DesktopBoundsR where
  width : ℝ
  depth : ℝ
  height : ℝ
  minX : ℝ
  maxX : ℝ
  minZ : ℝ
  maxZ : ℝ
  centerY : ℝ
  pos : Vec3R
  quat : Quat

/-- `DesktopPlacer._createDesktop(position, orientation, detectedSize)`:
size from the detection (scaled by 0.9 and clamped to
`[MIN_SIZE, MAX_SIZE]`) or the `0.8 × 0.6` fallback, thickness from the
constants, and the forced-level (yaw-only) orientation. -/
noncomputable def createDesktop (position : Vec3R) (orientation : Quat)
    (detectedSize : Option (ℝ × ℝ)) : DesktopBoundsR :=
  let wd : ℝ × ℝ :=
    match detectedSize with
    | some (w, d) =>
      if 0 < w ∧ 0 < d then
        (clampR (w * 0.9) DESKTOP_MIN_SIZE DESKTOP_MAX_SIZE,
         clampR (d * 0.9) DESKTOP_MIN_SIZE DESKTOP_MAX_SIZE)
      else
        (clampR 0.8 DESKTOP_MIN_SIZE DESKTOP_MAX_SIZE,
         clampR 0.6 DESKTOP_MIN_SIZE DESKTOP_MAX_SIZE)
    | none =>
      (clampR 0.8 DESKTOP_MIN_SIZE DESKTOP_MAX_SIZE,
       clampR 0.6 DESKTOP_MIN_SIZE DESKTOP_MAX_SIZE)
  let thickness : ℝ := (DESKTOP_THICKNESS : ℝ)
  { width := wd.1
    depth := wd.2
    height := thickness
    minX := -wd.1 / 2
    maxX := wd.1 / 2
    minZ := -wd.2 / 2
    maxZ := wd.2 / 2
    centerY := position.y + thickness
    pos := position
    quat := forceHorizontalOrientation orientation }

/-- A six-DOF pose (position + orientation) as delivered by
`frame.getPose` / `hitTestResult.getPose`. -/
structure PoseR where
  position : Vec3R
  orientation : Quat

/-- The observable state of a `DesktopPlacer`. -/
structure PlacerState where
  isPlaced : Bool
  desktopBounds : Option DesktopBoundsR

/-- A fresh `DesktopPlacer`. -/
def initPlacerState : PlacerState := { isPlaced := false, desktopBounds := none }

/-- What a placement call hands back to its caller: the bounds on success, a
thrown (typed) error on failure. -/
inductive PlaceOutcome where
  | bounds (b : Option DesktopBoundsR)
  | failure

/-- `DesktopPlacer.placeDesktopOnPlane(plane, frame, referenceSpace,
detectedSize)`: early-returns the existing bounds when already placed; throws
(no state change) when `frame.getPose(plane.planeSpace, referenceSpace)`
yields no pose; otherwise commits the bounds and sets `isPlaced`.
`DesktopPlacer.placeDesktop(hitTestResult, ...)` has the identical structure
with the pose taken from `hitTestResult.getPose(referenceSpace)`, so this
function models both entry points, `pose` being the nullable pose obtained
for the chosen plane/hit at call time. -/
noncomputable def placeDesktopOnPlane (s : PlacerState) (pose : Option PoseR)
    (detectedSize : Option (ℝ × ℝ)) : PlaceOutcome × PlacerState :=
  if s.isPlaced then (.bounds s.desktopBounds, s)
  else
    match pose with
    | none => (.failure, s)
    | some p =>
      let b := createDesktop p.position p.orientation detectedSize
      (.bounds (some b), { isPlaced := true, desktopBounds := some b })

/-! ## Plate.update, revised Plate (src/unnamed/part_005) -/

/-- The body state `Plate.update` reads and writes: position and linear
velocity. -/
structure PlateBodyState where
  pos : Vec3R
  vel : Vec3R

/-- The velocity clamp inside the revised `Plate.update`: when the speed
(`velocity.length()`) exceeds `maxVelocity = 5.0` m/s, rescale the velocity by
`maxVelocity / speed` (`velocity.scale(...)`). -/
noncomputable def clampPlateVelocity (v : Vec3R) : Vec3R :=
  if 5 < length3 v then
    ⟨v.x * (5 / length3 v), v.y * (5 / length3 v), v.z * (5 / length3 v)⟩
  else v

/-- The physics-to-visual sync of the revised `Plate.update` for a plate that
is not being dragged, given the desktop reference height `minY`
(`physicsWorld.desktopBounds?.position?.y`, absent while no desktop exists):
clamp the speed to 5 m/s, then, if the body is more than 0.1 below `minY`,
snap it to `minY + 0.1` and remove any downward velocity
(`velocity.y = Math.max(0, velocity.y)`). -/
noncomputable def plateUpdate (minY : Option ℝ) (b : PlateBodyState) : PlateBodyState :=
  match minY with
  | some y0 =>
    if b.pos.y < y0 - 0.1 then
      { pos := ⟨b.pos.x, y0 + 0.1, b.pos.z⟩
        vel := ⟨(clampPlateVelocity b.vel).x, max 0 (clampPlateVelocity b.vel).y,
                (clampPlateVelocity b.vel).z⟩ }
    else { pos := b.pos, vel := clampPlateVelocity b.vel }
  | none => { pos := b.pos, vel := clampPlateVelocity b.vel }

/-! ## ThrowController, XR branch (src/unnamed/part_004) -/

/-- `ThrowController.throwPlate` applied to a pre-computed 3-D release
velocity (the XR branch): amplify by 2.5, dampen the vertical component by
0.2, then cap the speed at `MAX_THROW_VELOCITY` (normalize and rescale when
above it). -/
noncomputable def throwVelocityXR (v : Vec3R) : Vec3R :=
  let amplified : Vec3R := ⟨v.x * 2.5, v.y * 2.5, v.z * 2.5⟩
  let damped : Vec3R := ⟨amplified.x, amplified.y * 0.2, amplified.z⟩
  let speed := length3 damped
  if INTERACTION_MAX_THROW_VELOCITY < speed then
    ⟨damped.x / speed * INTERACTION_MAX_THROW_VELOCITY,
     damped.y / speed * INTERACTION_MAX_THROW_VELOCITY,
     damped.z / speed * INTERACTION_MAX_THROW_VELOCITY⟩
  else damped

/-! ## Theorems -/

/-- C10: with fewer than 2 samples, or when the first and last considered
samples have equal timestamps, `calculateVelocity` and `calculateVelocity3D`
return the zero velocity instead of dividing by zero; and
`calculateVelocity3D` computes its result from only the most recent
`min(5, length)` samples of the history. -/
theorem velocity_estimators_safe :
    (∀ h : List TouchPoint, h.length < 2 → calculateVelocity h = (0, 0)) ∧
    (∀ (h : List TouchPoint) (a b : TouchPoint), h.head? = some a → h.getLast? = some b →
      b.time = a.time → calculateVelocity h = (0, 0)) ∧
    (∀ h : List PosSample, h.length < 2 → calculateVelocity3D h = ⟨0, 0, 0, 0⟩) ∧
    (∀ (h : List PosSample) (a b : PosSample),
      (h.drop (h.length - 5)).head? = some a → (h.drop (h.length - 5)).getLast? = some b →
      b.time = a.time → calculateVelocity3D h = ⟨0, 0, 0, 0⟩) ∧
    (∀ h : List PosSample, calculateVelocity3D h = calculateVelocity3D (h.drop (h.length - 5))) := by
  have hmin : ∀ n : ℕ, n - min 5 n = n - 5 := by omega
  refine ⟨?_, ?_, ?_, ?_, ?_⟩
  · intro h hl
    simp [calculateVelocity, hl]
  · intro h a b hhead hlast htime
    by_cases hl : h.length < 2
    · simp [calculateVelocity, hl]
    · simp [calculateVelocity, hl, hhead, hlast, htime]
  · intro h hl
    simp [calculateVelocity3D, hl]
  · intro h a b hhead hlast htime
    by_cases hl : h.length < 2
    · simp [calculateVelocity3D, hl]
    · rw [calculateVelocity3D, if_neg hl, hmin h.length]
      simp [velocityFromWindow, hhead, hlast, htime]
  · intro h
    by_cases hl : h.length < 2
    · have h5 : h.length - 5 = 0 := by omega
      rw [h5, List.drop_zero]
    · have hlen' : (h.drop (h.length - 5)).length = min 5 h.length := by
        rw [List.length_drop]; omega
      have hl' : ¬ (h.drop (h.length - 5)).length < 2 := by omega
      have h5' : (h.drop (h.length - 5)).length - min 5 (h.drop (h.length - 5)).length = 0 := by
        omega
      rw [calculateVelocity3D, calculateVelocity3D, if_neg hl, if_neg hl',
        hmin h.length, h5', List.drop_zero]

/-- C10 witness: concrete evaluations through `velocity_estimators_safe`. -/
theorem velocity_estimators_safe_witness :
    calculateVelocity [⟨0, 0, 0⟩] = (0, 0) ∧
    calculateVelocity [⟨1, 2, 5⟩, ⟨3, 4, 5⟩] = (0, 0) ∧
    calculateVelocity3D [⟨0, 0, 0, 0⟩] = ⟨0, 0, 0, 0⟩ ∧
    calculateVelocity3D [⟨1, 2, 3, 7⟩, ⟨4, 5, 6, 7⟩] = ⟨0, 0, 0, 0⟩ ∧
    calculateVelocity3D [⟨1, 2, 3, 7⟩, ⟨4, 5, 6, 8⟩] =
      calculateVelocity3D ([⟨1, 2, 3, 7⟩, ⟨4, 5, 6, 8⟩].drop ([(⟨1, 2, 3, 7⟩ : PosSample),
        ⟨4, 5, 6, 8⟩].length - 5)) :=
  ⟨velocity_estimators_safe.1 _ (by decide),
   velocity_estimators_safe.2.1 _ ⟨1, 2, 5⟩ ⟨3, 4, 5⟩ (by decide) (by decide) (by decide),
   velocity_estimators_safe.2.2.1 _ (by decide),
   velocity_estimators_safe.2.2.2.1 _ ⟨1, 2, 3, 7⟩ ⟨4, 5, 6, 7⟩ (by decide) (by decide)
     (by decide),
   velocity_estimators_safe.2.2.2.2 _⟩

/-- C7: a release whose last recorded sample coincides with the start position
(zero total displacement) is classified as a tap — never as a throw — because
the displacement magnitude is below the tap threshold. -/
theorem zero_displacement_release_is_tap (touchStartPos : TouchPoint)
    (touchHistory : List TouchPoint)
    (hx : (touchHistory.getLastD touchStartPos).x = touchStartPos.x)
    (hy : (touchHistory.getLastD touchStartPos).y = touchStartPos.y) :
    classifyRelease touchStartPos touchHistory = .tap ∧
    classifyRelease touchStartPos touchHistory ≠ .throwGesture := by
  have : classifyRelease touchStartPos touchHistory = .tap := by
    simp only [classifyRelease, hx, hy, sub_self, INTERACTION_TAP_THRESHOLD]
    norm_num
  exact ⟨this, by rw [this]; exact fun h => by cases h⟩

/-- C7 witness: the history `[(0,0,t=0), (0,0,t=100ms)]` with start `(0,0)`
takes the tap branch. -/
theorem zero_displacement_release_is_tap_witness :
    classifyRelease ⟨0, 0, 0⟩ [⟨0, 0, 0⟩, ⟨0, 0, 100⟩] = .tap ∧
    classifyRelease ⟨0, 0, 0⟩ [⟨0, 0, 0⟩, ⟨0, 0, 100⟩] ≠ .throwGesture :=
  zero_displacement_release_is_tap ⟨0, 0, 0⟩ [⟨0, 0, 0⟩, ⟨0, 0, 100⟩] (by decide) (by decide)

/-- A 2.5 m × 2 m rectangle (area 5 m²), as plane polygon vertices. -/
def rect5 : List PlanePoint := [⟨0, 0, 0⟩, ⟨5/2, 0, 0⟩, ⟨5/2, 0, 2⟩, ⟨0, 0, 2⟩]

/-- A 1 m × 0.5 m rectangle (area 0.5 m²). -/
def rectHalf : List PlanePoint := [⟨0, 0, 0⟩, ⟨1, 0, 0⟩, ⟨1, 0, 1/2⟩, ⟨0, 0, 1/2⟩]

/-- C2: a horizontal plane with a valid pose is rejected iff its height
exceeds 2.0 m, or its height is below 0.5 m and its reported polygon area
exceeds 3.0 m²; otherwise it becomes a selectable candidate.  In particular a
plane at height 2.5 m is rejected regardless of polygon, one at height 0.1 m
with area 5 m² is rejected, and one at height 0.8 m with area 0.5 m² is
accepted. -/
theorem surface_filter_policy :
    (∀ (height : ℚ) (polygon : Option (List PlanePoint)),
        surfaceAccepted height polygon = true ↔
          ¬ (2 < height) ∧ ¬ (height < 1/2 ∧ 3 < reportedArea polygon)) ∧
    (∀ polygon, surfaceAccepted (5/2) polygon = false) ∧
    surfaceAccepted (1/10) (some rect5) = false ∧
    surfaceAccepted (8/10) (some rectHalf) = true ∧
    calculatePolygonArea rect5 = 5 ∧
    calculatePolygonArea rectHalf = 1/2 := by
  have hfold5 : (List.range rect5.length).foldl (fun acc i => acc + shoelaceTerm rect5 i) 0
      = 10 := by
    norm_num [rect5, List.range_succ, shoelaceTerm, List.getD]
  have hfoldHalf :
      (List.range rectHalf.length).foldl (fun acc i => acc + shoelaceTerm rectHalf i) 0 = 1 := by
    norm_num [rectHalf, List.range_succ, shoelaceTerm, List.getD]
  have harea5 : calculatePolygonArea rect5 = 5 := by
    rw [calculatePolygonArea, if_neg (by decide), hfold5,
      show (10 : ℚ) / 2 = 5 from by norm_num]
    exact abs_of_nonneg (by norm_num)
  have hareaHalf : calculatePolygonArea rectHalf = 1/2 := by
    rw [calculatePolygonArea, if_neg (by decide), hfoldHalf]
    exact abs_of_nonneg (by norm_num)
  refine ⟨?_, ?_, ?_, ?_, harea5, hareaHalf⟩
  · intro height polygon
    rcases polygon with _ | poly
    · simp only [surfaceAccepted, reportedArea]
      split_ifs with h1 h2 <;> simp_all
    · simp only [surfaceAccepted, reportedArea]
      split_ifs with h1 h2 h3 <;> simp_all
  · intro polygon
    simp only [surfaceAccepted]
    norm_num
  · rw [surfaceAccepted, if_neg (by norm_num), if_pos (by norm_num), harea5,
      if_pos (by norm_num)]
  · rw [surfaceAccepted, if_neg (by norm_num), if_neg (by norm_num)]

/-- `setKinematicPlateJs` never changes `collisionResponse`. -/
theorem setKinematicPlateJs_collisionResponse (b : Bool) (p : PlateKinState) :
    (setKinematicPlateJs b p).collisionResponse = p.collisionResponse := by
  cases b <;> simp [setKinematicPlateJs]

/-- The part_005 variant keeps `collisionResponse` equal to "not kinematic"
on every state it can produce. -/
theorem setKinematicPart005_invariant (b : Bool) (p : PlateKinState) :
    ((setKinematicPart005 b p).btype = BodyType.kinematic →
      (setKinematicPart005 b p).collisionResponse = false) ∧
    ((setKinematicPart005 b p).btype = BodyType.dynamic →
      (setKinematicPart005 b p).collisionResponse = true) := by
  cases b <;> simp [setKinematicPart005]

/-- C1 counterexample: on the revised Plate of src/unnamed/part_005, a single
`setKinematic(true)` on a fresh plate body leaves the body in kinematic mode
with `collisionResponse = false`, so a body in kinematic mode does not keep
`collisionResponse = true`. -/
theorem setKinematic_part005_disables_collision :
    (setKinematicPart005 true initPlateKinState).btype = BodyType.kinematic ∧
    (setKinematicPart005 true initPlateKinState).collisionResponse = false := by
  decide

/-- C1 amended: `setKinematic(true)` zeroes the linear and angular velocity
in both Plate variants.  In the src/src/objects/Plate.js variant
`collisionResponse` is never touched, hence stays `true` under every sequence
of `setKinematic` calls; in the src/unnamed/part_005 variant
`setKinematic(true)` sets `collisionResponse = false` (a kinematic body does
not push other objects) and `setKinematic(false)` restores it to `true`, so
under every reachable sequence kinematic mode implies
`collisionResponse = false`. -/
theorem setKinematic_collision_response :
    (∀ p : PlateKinState, (setKinematicPlateJs true p).velocity = 0 ∧
        (setKinematicPlateJs true p).angularVelocity = 0 ∧
        (setKinematicPlateJs true p).collisionResponse = p.collisionResponse) ∧
    (∀ calls : List Bool,
        (calls.foldl (fun s b => setKinematicPlateJs b s) initPlateKinState).collisionResponse
          = true) ∧
    (∀ p : PlateKinState, (setKinematicPart005 true p).velocity = 0 ∧
        (setKinematicPart005 true p).angularVelocity = 0 ∧
        (setKinematicPart005 true p).collisionResponse = false) ∧
    (∀ calls : List Bool,
        ((calls.foldl (fun s b => setKinematicPart005 b s) initPlateKinState).btype
            = BodyType.kinematic →
          (calls.foldl (fun s b => setKinematicPart005 b s) initPlateKinState).collisionResponse
            = false) ∧
        ((calls.foldl (fun s b => setKinematicPart005 b s) initPlateKinState).btype
            = BodyType.dynamic →
          (calls.foldl (fun s b => setKinematicPart005 b s) initPlateKinState).collisionResponse
            = true)) := by
  refine ⟨fun p => ⟨rfl, rfl, rfl⟩, ?_, fun p => ⟨rfl, rfl, rfl⟩, ?_⟩
  · intro calls
    suffices h : ∀ p : PlateKinState,
        (calls.foldl (fun s b => setKinematicPlateJs b s) p).collisionResponse
          = p.collisionResponse by
      exact h initPlateKinState
    induction calls with
    | nil => intro p; rfl
    | cons c rest ih =>
      intro p
      rw [List.foldl_cons, ih, setKinematicPlateJs_collisionResponse]
  · intro calls
    suffices h : ∀ p : PlateKinState,
        ((p.btype = BodyType.kinematic → p.collisionResponse = false) ∧
         (p.btype = BodyType.dynamic → p.collisionResponse = true)) →
        (((calls.foldl (fun s b => setKinematicPart005 b s) p).btype = BodyType.kinematic →
          (calls.foldl (fun s b => setKinematicPart005 b s) p).collisionResponse = false) ∧
         ((calls.foldl (fun s b => setKinematicPart005 b s) p).btype = BodyType.dynamic →
          (calls.foldl (fun s b => setKinematicPart005 b s) p).collisionResponse = true)) by
      exact h initPlateKinState (by decide)
    induction calls with
    | nil => intro p hp; exact hp
    | cons c rest ih =>
      intro p hp
      rw [List.foldl_cons]
      exact ih _ (setKinematicPart005_invariant c p)

/-- C1 witness: concrete instances of `setKinematic_collision_response`. -/
theorem setKinematic_collision_response_witness :
    (setKinematicPlateJs true initPlateKinState).velocity = 0 ∧
    ([true].foldl (fun s b => setKinematicPlateJs b s) initPlateKinState).collisionResponse
      = true ∧
    ([true].foldl (fun s b => setKinematicPart005 b s) initPlateKinState).collisionResponse
      = false ∧
    ([true, false].foldl (fun s b => setKinematicPart005 b s) initPlateKinState).collisionResponse
      = true :=
  ⟨(setKinematic_collision_response.1 initPlateKinState).1,
   setKinematic_collision_response.2.1 [true],
   (setKinematic_collision_response.2.2.2 [true]).1 (by decide),
   (setKinematic_collision_response.2.2.2 [true, false]).2 (by decide)⟩

/-- The bookkeeping invariant of `PhysicsWorld`: `desktopBodies` lists exactly
the ids of the bodies in the world (maintained because only
`setupDesktopBoundaries` populates either in a boundary-setup sequence). -/
def PWInv (s : PWState) : Prop :=
  s.desktopBodies = s.worldBodies.map (·.id)

/-- One `setupDesktopBoundaries` call on an invariant state removes every
previous body and installs exactly the five boundary bodies of the new
bounds. -/
theorem setupDesktopBoundaries_resets (s : PWState) (h : PWInv s) (bounds : DeskBounds) :
    (setupDesktopBoundaries s bounds).worldBodies.map (·.spec) = boundarySpecs bounds ∧
    (setupDesktopBoundaries s bounds).worldBodies.length = 5 ∧
    (∀ body ∈ (setupDesktopBoundaries s bounds).worldBodies, body.createdAt = s.callCount) ∧
    PWInv (setupDesktopBoundaries s bounds) := by
  have hfilter : s.worldBodies.filter (fun b => b.id ∉ s.desktopBodies) = [] := by
    rw [List.filter_eq_nil_iff]
    intro b hb
    have : b.id ∈ s.desktopBodies := by
      rw [h]; exact List.mem_map_of_mem (·.id) hb
    simp [this]
  unfold setupDesktopBoundaries PWInv
  rw [hfilter]
  refine ⟨?_, ?_, ?_, ?_⟩
  · simp [List.map_map, Function.comp]
    exact List.enum_map_snd _
  · simp [boundarySpecs, wallSpecs]
  · intro body hbody
    simp only [List.nil_append, List.mem_map] at hbody
    obtain ⟨⟨i, spec⟩, _, rfl⟩ := hbody
    rfl
  · simp

/-- `PWInv` holds for the initial state and is preserved by every
`setupDesktopBoundaries` call. -/
theorem PWInv_foldl (prev : List DeskBounds) :
    PWInv (prev.foldl setupDesktopBoundaries initPWState) := by
  suffices h : ∀ s : PWState, PWInv s → PWInv (prev.foldl setupDesktopBoundaries s) by
    exact h initPWState (by simp [PWInv, initPWState])
  induction prev with
  | nil => intro s hs; exact hs
  | cons b rest ih =>
    intro s hs
    rw [List.foldl_cons]
    exact ih _ (setupDesktopBoundaries_resets s hs b).2.2.2

/-- C3: after every `setupDesktopBoundaries` call of an arbitrary call
sequence, exactly one boundary set is active: the world holds exactly the
five static bodies (floor plus four walls) of the latest bounds, every one of
them created by the latest call — bodies of earlier calls are removed, never
accumulated. -/
theorem boundaries_replaced_not_accumulated (prev : List DeskBounds) (bounds : DeskBounds) :
    ((setupDesktopBoundaries (prev.foldl setupDesktopBoundaries initPWState)
        bounds).worldBodies.map (·.spec) = boundarySpecs bounds) ∧
    (setupDesktopBoundaries (prev.foldl setupDesktopBoundaries initPWState)
        bounds).worldBodies.length = 5 ∧
    (boundarySpecs bounds).length = 5 ∧
    (∀ body ∈ (setupDesktopBoundaries (prev.foldl setupDesktopBoundaries initPWState)
        bounds).worldBodies,
      body.createdAt + 1 =
        (setupDesktopBoundaries (prev.foldl setupDesktopBoundaries initPWState)
          bounds).callCount) := by
  obtain ⟨h1, h2, h3, _⟩ :=
    setupDesktopBoundaries_resets (prev.foldl setupDesktopBoundaries initPWState)
      (PWInv_foldl prev) bounds
  refine ⟨h1, h2, by simp [boundarySpecs, wallSpecs], ?_⟩
  intro body hbody
  rw [h3 body hbody]
  rfl

/-- `randFloat` stays inside `[lo, hi]` for draws in `[0, 1]`. -/
theorem randFloat_bounds (lo hi r : ℚ) (h0 : 0 ≤ r) (h1 : r ≤ 1) (hlh : lo ≤ hi) :
    lo ≤ randFloat lo hi r ∧ randFloat lo hi r ≤ hi := by
  unfold randFloat
  constructor <;> nlinarith

/-- A candidate accepted by the overlap test is at squared distance at least
`minSpacing²` from every existing position. -/
theorem isValidCandidate_spec (existingPositions : List (ℚ × ℚ)) (minSpacing x z : ℚ)
    (h : isValidCandidate existingPositions minSpacing x z = true) :
    ∀ q ∈ existingPositions, minSpacing ^ 2 ≤ (x - q.1) ^ 2 + (z - q.2) ^ 2 := by
  intro q hq
  rw [isValidCandidate, List.all_eq_true] at h
  have hmem := h q hq
  simp only [Bool.not_eq_true', decide_eq_false_iff_not, not_lt] at hmem
  exact hmem

/-- A successful `generateNonOverlappingPosition` yields a point inside the
bounds (given in-range draws and a nonempty box) at squared distance at least
`minSpacing²` from every existing position. -/
theorem generateNonOverlappingPosition_spec (bounds : Bounds2) (minSpacing : ℚ)
    (hbx : bounds.minX ≤ bounds.maxX) (hbz : bounds.minZ ≤ bounds.maxZ) :
    ∀ (fuel : ℕ) (draws : ℕ → ℚ × ℚ),
      (∀ j, 0 ≤ (draws j).1 ∧ (draws j).1 ≤ 1 ∧ 0 ≤ (draws j).2 ∧ (draws j).2 ≤ 1) →
      ∀ (existingPositions : List (ℚ × ℚ)) (x z : ℚ),
      generateNonOverlappingPosition existingPositions bounds minSpacing draws fuel
        = some (x, z) →
      (bounds.minX ≤ x ∧ x ≤ bounds.maxX ∧ bounds.minZ ≤ z ∧ z ≤ bounds.maxZ) ∧
      ∀ q ∈ existingPositions, minSpacing ^ 2 ≤ (x - q.1) ^ 2 + (z - q.2) ^ 2 := by
  intro fuel
  induction fuel with
  | zero =>
    intro draws hd existingPositions x z hgen
    simp [generateNonOverlappingPosition] at hgen
  | succ n ih =>
    intro draws hd existingPositions x z hgen
    rw [generateNonOverlappingPosition] at hgen
    split_ifs at hgen with hv
    · rw [Option.some.injEq, Prod.mk.injEq] at hgen
      obtain ⟨rfl, rfl⟩ := hgen
      obtain ⟨h1, h2, h3, h4⟩ := hd 0
      exact ⟨⟨(randFloat_bounds _ _ _ h1 h2 hbx).1, (randFloat_bounds _ _ _ h1 h2 hbx).2,
        (randFloat_bounds _ _ _ h3 h4 hbz).1, (randFloat_bounds _ _ _ h3 h4 hbz).2⟩,
        isValidCandidate_spec _ _ _ _ hv⟩
    · exact ih (fun i => draws (i + 1)) (fun j => hd (j + 1)) existingPositions x z hgen

/-- The spawn loop preserves: all accumulated positions in bounds, pairwise
squared distance at least `MIN_SPACING²`, and it adds at most one position
per iteration. -/
theorem spawnLoop_spec (bounds : Bounds2)
    (hbx : bounds.minX ≤ bounds.maxX) (hbz : bounds.minZ ≤ bounds.maxZ) :
    ∀ (n : ℕ) (attemptDraws : ℕ → ℕ → ℚ × ℚ),
      (∀ i j, 0 ≤ (attemptDraws i j).1 ∧ (attemptDraws i j).1 ≤ 1 ∧
        0 ≤ (attemptDraws i j).2 ∧ (attemptDraws i j).2 ≤ 1) →
      ∀ acc : List (ℚ × ℚ),
      (∀ p ∈ acc, bounds.minX ≤ p.1 ∧ p.1 ≤ bounds.maxX ∧
        bounds.minZ ≤ p.2 ∧ p.2 ≤ bounds.maxZ) →
      acc.Pairwise (fun p q => SPAWN_MIN_SPACING ^ 2 ≤ (p.1 - q.1) ^ 2 + (p.2 - q.2) ^ 2) →
      (∀ p ∈ spawnLoop bounds attemptDraws n acc, bounds.minX ≤ p.1 ∧ p.1 ≤ bounds.maxX ∧
        bounds.minZ ≤ p.2 ∧ p.2 ≤ bounds.maxZ) ∧
      (spawnLoop bounds attemptDraws n acc).Pairwise
        (fun p q => SPAWN_MIN_SPACING ^ 2 ≤ (p.1 - q.1) ^ 2 + (p.2 - q.2) ^ 2) ∧
      (spawnLoop bounds attemptDraws n acc).length ≤ acc.length + n := by
  intro n
  induction n with
  | zero =>
    intro attemptDraws hd acc hB hP
    exact ⟨hB, hP, by simp [spawnLoop]⟩
  | succ m ih =>
    intro attemptDraws hd acc hB hP
    rcases hg : generateNonOverlappingPosition acc bounds SPAWN_MIN_SPACING (attemptDraws 0) 50
      with _ | p
    · have hstep : spawnLoop bounds attemptDraws (m + 1) acc
          = spawnLoop bounds (fun i => attemptDraws (i + 1)) m acc := by
        rw [spawnLoop, hg]
      rw [hstep]
      obtain ⟨r1, r2, r3⟩ := ih (fun i => attemptDraws (i + 1)) (fun i j => hd (i + 1) j) acc hB hP
      exact ⟨r1, r2, by omega⟩
    · have hstep : spawnLoop bounds attemptDraws (m + 1) acc
          = spawnLoop bounds (fun i => attemptDraws (i + 1)) m (acc ++ [p]) := by
        rw [spawnLoop, hg]
      rw [hstep]
      obtain ⟨pb, pfar⟩ := generateNonOverlappingPosition_spec bounds SPAWN_MIN_SPACING hbx hbz
        50 (attemptDraws 0) (fun j => hd 0 j) acc p.1 p.2 hg
      have hB' : ∀ q ∈ acc ++ [p], bounds.minX ≤ q.1 ∧ q.1 ≤ bounds.maxX ∧
          bounds.minZ ≤ q.2 ∧ q.2 ≤ bounds.maxZ := by
        intro q hq
        rcases List.mem_append.mp hq with hq | hq
        · exact hB q hq
        · rw [List.mem_singleton] at hq
          subst hq
          exact pb
      have hP' : (acc ++ [p]).Pairwise
          (fun p q => SPAWN_MIN_SPACING ^ 2 ≤ (p.1 - q.1) ^ 2 + (p.2 - q.2) ^ 2) := by
        rw [List.pairwise_append]
        refine ⟨hP, List.pairwise_singleton _ _, ?_⟩
        intro a ha b hb
        rw [List.mem_singleton] at hb
        rw [hb]
        have := pfar a ha
        have e1 : (p.1 - a.1) ^ 2 = (a.1 - p.1) ^ 2 := by ring
        have e2 : (p.2 - a.2) ^ 2 = (a.2 - p.2) ^ 2 := by ring
        rw [e1, e2] at this
        exact this
      obtain ⟨r1, r2, r3⟩ := ih (fun i => attemptDraws (i + 1)) (fun i j => hd (i + 1) j)
        (acc ++ [p]) hB' hP'
      refine ⟨r1, r2, ?_⟩
      rw [List.length_append, List.length_singleton] at r3
      omega

/-- Bounds and draw stream of the concrete counterexample run. -/
def cxBounds : SpawnBounds :=
  { minX := -1/2, maxX := 1/2, minZ := -2/5, maxZ := 2/5, posX := 0, posZ := 0, centerY := 1 }

/-- All `Math.random` draws of the counterexample run are `0`. -/
def cxDraws : ℕ → ℕ → ℚ × ℚ := fun _ _ => (0, 0)

/-- The count draw `0` makes `spawnPlates` spawn `MIN_PLATES = 5` plates. -/
theorem plateCount_zero : plateCount 0 = 5 := by
  have hX : (0 : ℚ) * ((SPAWN_MAX_PLATES : ℚ) - (SPAWN_MIN_PLATES : ℚ) + 1)
      + (SPAWN_MIN_PLATES : ℚ) = ((5 : ℤ) : ℚ) := by
    unfold SPAWN_MIN_PLATES SPAWN_MAX_PLATES
    push_cast
    ring
  rw [plateCount, hX, Int.floor_intCast]

/-- C9 counterexample: a reachable run of `spawnPlates` (count draw `0`, every
position draw `0`, both legal `Math.random` values) yields a number of plates
other than 6 — `spawnPlates` takes no plate count, draws it randomly in
`[MIN_PLATES, MAX_PLATES] = [5, 8]`, and skips plates whose position search
fails, so "exactly 6 plates" is not guaranteed. -/
theorem spawnPlates_not_always_six :
    (spawnPlatesPositions cxBounds 0 cxDraws).length ≠ 6 := by
  have hd : ∀ i j, 0 ≤ (cxDraws i j).1 ∧ (cxDraws i j).1 ≤ 1 ∧
      0 ≤ (cxDraws i j).2 ∧ (cxDraws i j).2 ≤ 1 := by
    intro i j
    refine ⟨le_refl 0, ?_, le_refl 0, ?_⟩ <;> norm_num [cxDraws]
  have hlen := (spawnLoop_spec (paddedBounds cxBounds)
    (by norm_num [paddedBounds, cxBounds]) (by norm_num [paddedBounds, cxBounds])
    (plateCount 0).toNat cxDraws hd [] (by simp) (by simp)).2.2
  rw [spawnPlatesPositions]
  rw [plateCount_zero] at hlen ⊢
  simp only [List.length_nil, Nat.zero_add] at hlen
  omega

/-- C9 amended: `spawnPlates` spawns a randomly drawn number of plates
between `MIN_PLATES = 5` and `MAX_PLATES = 8` (skipping any plate whose
50-attempt position search fails), and every generated 2-D position lies
inside the 0.1-padded desktop bounds at squared distance at least
`MIN_SPACING²` (hence distance at least `MIN_SPACING = 0.1`, in particular
pairwise distinct) from every other generated position. -/
theorem spawnPlates_positions_valid (desktopBounds : SpawnBounds) (countDraw : ℚ)
    (attemptDraws : ℕ → ℕ → ℚ × ℚ)
    (hc0 : 0 ≤ countDraw) (hc1 : countDraw < 1)
    (hd : ∀ i j, 0 ≤ (attemptDraws i j).1 ∧ (attemptDraws i j).1 ≤ 1 ∧
      0 ≤ (attemptDraws i j).2 ∧ (attemptDraws i j).2 ≤ 1)
    (hbx : (paddedBounds desktopBounds).minX ≤ (paddedBounds desktopBounds).maxX)
    (hbz : (paddedBounds desktopBounds).minZ ≤ (paddedBounds desktopBounds).maxZ) :
    (5 ≤ plateCount countDraw ∧ plateCount countDraw ≤ 8) ∧
    (spawnPlatesPositions desktopBounds countDraw attemptDraws).length
      ≤ (plateCount countDraw).toNat ∧
    (∀ p ∈ spawnPlatesPositions desktopBounds countDraw attemptDraws,
      (paddedBounds desktopBounds).minX ≤ p.1 ∧ p.1 ≤ (paddedBounds desktopBounds).maxX ∧
      (paddedBounds desktopBounds).minZ ≤ p.2 ∧ p.2 ≤ (paddedBounds desktopBounds).maxZ) ∧
    (spawnPlatesPositions desktopBounds countDraw attemptDraws).Pairwise
      (fun p q => SPAWN_MIN_SPACING ^ 2 ≤ (p.1 - q.1) ^ 2 + (p.2 - q.2) ^ 2) := by
  have hcount : 5 ≤ plateCount countDraw ∧ plateCount countDraw ≤ 8 := by
    constructor
    · rw [plateCount]
      apply Int.le_floor.mpr
      unfold SPAWN_MIN_PLATES SPAWN_MAX_PLATES
      push_cast
      nlinarith
    · have h9 : plateCount countDraw < 9 := by
        rw [plateCount]
        apply Int.floor_lt.mpr
        unfold SPAWN_MIN_PLATES SPAWN_MAX_PLATES
        push_cast
        nlinarith
      omega
  obtain ⟨hmem, hpair, hlen⟩ := spawnLoop_spec (paddedBounds desktopBounds) hbx hbz
    (plateCount countDraw).toNat attemptDraws hd [] (by simp) (by simp)
  rw [List.length_nil, Nat.zero_add] at hlen
  exact ⟨hcount, hlen, hmem, hpair⟩

/-- C9 witness: `spawnPlates_positions_valid` at the concrete counterexample
bounds and draw stream. -/
theorem spawnPlates_positions_valid_witness :
    (5 ≤ plateCount 0 ∧ plateCount 0 ≤ 8) ∧
    (spawnPlatesPositions cxBounds 0 cxDraws).length ≤ (plateCount 0).toNat ∧
    (∀ p ∈ spawnPlatesPositions cxBounds 0 cxDraws,
      (paddedBounds cxBounds).minX ≤ p.1 ∧ p.1 ≤ (paddedBounds cxBounds).maxX ∧
      (paddedBounds cxBounds).minZ ≤ p.2 ∧ p.2 ≤ (paddedBounds cxBounds).maxZ) ∧
    (spawnPlatesPositions cxBounds 0 cxDraws).Pairwise
      (fun p q => SPAWN_MIN_SPACING ^ 2 ≤ (p.1 - q.1) ^ 2 + (p.2 - q.2) ^ 2) :=
  spawnPlates_positions_valid cxBounds 0 cxDraws (le_refl 0) (by norm_num)
    (by intro i j; refine ⟨le_refl 0, ?_, le_refl 0, ?_⟩ <;> norm_num [cxDraws])
    (by norm_num [paddedBounds, cxBounds]) (by norm_num [paddedBounds, cxBounds])

/-- C5: a placement call on an unplaced `DesktopPlacer` for which no pose is
obtainable returns a failure and makes no state change: `isPlaced` stays
`false` and no partial DesktopBounds is ever committed (`desktopBounds` stays
`null`), so the caller may retry on a later frame. -/
theorem placement_failure_no_state_change (s : PlacerState) (detectedSize : Option (ℝ × ℝ))
    (hs : s.isPlaced = false) :
    (placeDesktopOnPlane s none detectedSize).1 = PlaceOutcome.failure ∧
    (placeDesktopOnPlane s none detectedSize).2 = s ∧
    (placeDesktopOnPlane s none detectedSize).2.isPlaced = false ∧
    (s.desktopBounds = none →
      (placeDesktopOnPlane s none detectedSize).2.desktopBounds = none) := by
  have h : placeDesktopOnPlane s none detectedSize = (.failure, s) := by
    simp [placeDesktopOnPlane, hs]
  rw [h]
  exact ⟨rfl, rfl, hs, fun hb => hb⟩

/-- C5 witness: `placement_failure_no_state_change` on a fresh placer. -/
theorem placement_failure_no_state_change_witness :
    initPlacerState.isPlaced = false ∧
    (placeDesktopOnPlane initPlacerState none none).1 = PlaceOutcome.failure ∧
    (placeDesktopOnPlane initPlacerState none none).2.isPlaced = false ∧
    (placeDesktopOnPlane initPlacerState none none).2.desktopBounds = none :=
  ⟨rfl, (placement_failure_no_state_change initPlacerState none rfl).1,
   (placement_failure_no_state_change initPlacerState none rfl).2.2.1,
   (placement_failure_no_state_change initPlacerState none rfl).2.2.2 rfl⟩

/-- `length3` of a componentwise-scaled vector. -/
theorem length3_smul (v : Vec3R) (c : ℝ) :
    length3 ⟨v.x * c, v.y * c, v.z * c⟩ = |c| * length3 v := by
  unfold length3
  rw [show (v.x * c) ^ 2 + (v.y * c) ^ 2 + (v.z * c) ^ 2
      = c ^ 2 * (v.x ^ 2 + v.y ^ 2 + v.z ^ 2) by ring,
    Real.sqrt_mul (sq_nonneg c), Real.sqrt_sq_eq_abs]

/-- The plate velocity clamp caps the speed at 5 m/s. -/
theorem clampPlateVelocity_le (v : Vec3R) : length3 (clampPlateVelocity v) ≤ 5 := by
  unfold clampPlateVelocity
  split_ifs with h
  · rw [length3_smul]
    have hpos : 0 < length3 v := lt_trans (by norm_num) h
    rw [abs_of_nonneg (by positivity), div_mul_cancel₀ 5 (ne_of_gt hpos)]
  · exact not_lt.mp h

/-- Replacing the vertical component by `max 0 ·` cannot increase the norm. -/
theorem length3_max_zero_y_le (v : Vec3R) :
    length3 ⟨v.x, max 0 v.y, v.z⟩ ≤ length3 v := by
  unfold length3
  apply Real.sqrt_le_sqrt
  have hy : (max 0 v.y) ^ 2 ≤ v.y ^ 2 := by
    rcases le_or_lt 0 v.y with h | h
    · rw [max_eq_right h]
    · rw [max_eq_left h.le]
      nlinarith [sq_nonneg v.y]
  linarith

/-- C6: the revised `Plate.update` of a non-dragged plate leaves the body's
speed at most 5.0 m/s, and when the body's height was more than 0.1 m below
the desktop reference height it snaps the height to 0.1 m above the reference
and makes the vertical velocity non-negative. -/
theorem plate_update_safety (minY : ℝ) (b : PlateBodyState) :
    length3 (plateUpdate (some minY) b).vel ≤ 5 ∧
    (b.pos.y < minY - 0.1 →
      (plateUpdate (some minY) b).pos.y = minY + 0.1 ∧
      0 ≤ (plateUpdate (some minY) b).vel.y) := by
  simp only [plateUpdate]
  split_ifs with h
  · exact ⟨le_trans (length3_max_zero_y_le (clampPlateVelocity b.vel))
      (clampPlateVelocity_le b.vel), fun _ => ⟨rfl, le_max_left 0 _⟩⟩
  · exact ⟨clampPlateVelocity_le b.vel, fun hc => absurd hc h⟩

/-- C6 witness: `plate_update_safety` on a body 10 m below a desktop at
height 0, falling at 1 m/s. -/
theorem plate_update_safety_witness :
    ((⟨⟨0, -10, 0⟩, ⟨0, -1, 0⟩⟩ : PlateBodyState).pos.y < 0 - 0.1) ∧
    length3 (plateUpdate (some 0) ⟨⟨0, -10, 0⟩, ⟨0, -1, 0⟩⟩).vel ≤ 5 ∧
    (plateUpdate (some 0) ⟨⟨0, -10, 0⟩, ⟨0, -1, 0⟩⟩).pos.y = 0 + 0.1 ∧
    0 ≤ (plateUpdate (some 0) ⟨⟨0, -10, 0⟩, ⟨0, -1, 0⟩⟩).vel.y :=
  ⟨by norm_num, (plate_update_safety 0 _).1,
   ((plate_update_safety 0 _).2 (by norm_num)).1,
   ((plate_update_safety 0 _).2 (by norm_num)).2⟩

/-- `length3` is nonnegative. -/
theorem length3_nonneg (v : Vec3R) : 0 ≤ length3 v := Real.sqrt_nonneg _

/-- `length3_smul` stated on raw components. -/
theorem length3_comp_smul (a b d c : ℝ) :
    length3 ⟨a * c, b * c, d * c⟩ = |c| * length3 ⟨a, b, d⟩ := by
  unfold length3
  rw [show (a * c) ^ 2 + (b * c) ^ 2 + (d * c) ^ 2 = c ^ 2 * (a ^ 2 + b ^ 2 + d ^ 2) by ring,
    Real.sqrt_mul (sq_nonneg c), Real.sqrt_sq_eq_abs]

/-- C8: every velocity the XR throw pipeline applies has magnitude at most
`MAX_THROW_VELOCITY = 8` m/s; and for the 0.3 m/s release velocity
`(0.2, 0.1, 0.2)` the launch speed lies in `[0.3, MAX_THROW_VELOCITY]` with
its vertical component strictly smaller in magnitude than its horizontal
component. -/
theorem throw_velocity_bounds :
    (∀ v : Vec3R, length3 (throwVelocityXR v) ≤ INTERACTION_MAX_THROW_VELOCITY) ∧
    length3 ⟨(1/5 : ℝ), 1/10, 1/5⟩ = 3/10 ∧
    3/10 ≤ length3 (throwVelocityXR ⟨1/5, 1/10, 1/5⟩) ∧
    length3 (throwVelocityXR ⟨1/5, 1/10, 1/5⟩) ≤ INTERACTION_MAX_THROW_VELOCITY ∧
    |(throwVelocityXR ⟨1/5, 1/10, 1/5⟩).y| <
      Real.sqrt ((throwVelocityXR ⟨1/5, 1/10, 1/5⟩).x ^ 2
        + (throwVelocityXR ⟨1/5, 1/10, 1/5⟩).z ^ 2) := by
  have hsqrt_le : Real.sqrt (201/400) ≤ 8 := by
    calc Real.sqrt (201/400) ≤ Real.sqrt 64 := Real.sqrt_le_sqrt (by norm_num)
      _ = 8 := by rw [show (64 : ℝ) = 8 ^ 2 by norm_num, Real.sqrt_sq (by norm_num)]
  have hin : length3 (⟨(1/5 : ℝ) * 2.5, (1/10) * 2.5 * 0.2, (1/5) * 2.5⟩ : Vec3R)
      = Real.sqrt (201/400) := by
    unfold length3
    norm_num
  have hval : throwVelocityXR ⟨1/5, 1/10, 1/5⟩ = ⟨1/2, 1/20, 1/2⟩ := by
    simp only [throwVelocityXR]
    rw [if_neg]
    · simp only [Vec3R.mk.injEq]
      norm_num
    · rw [hin, not_lt]
      rw [INTERACTION_MAX_THROW_VELOCITY]
      exact hsqrt_le
  have hout : length3 (⟨(1/2 : ℝ), 1/20, 1/2⟩ : Vec3R) = Real.sqrt (201/400) := by
    unfold length3
    norm_num
  refine ⟨?_, ?_, ?_, ?_, ?_⟩
  · intro v
    simp only [throwVelocityXR]
    split_ifs with h
    · have hL : length3 (⟨v.x * 2.5, v.y * 2.5 * 0.2, v.z * 2.5⟩ : Vec3R) ≠ 0 := by
        intro h0
        rw [h0, INTERACTION_MAX_THROW_VELOCITY] at h
        norm_num at h
      have e : ∀ u : ℝ, u / length3 (⟨v.x * 2.5, v.y * 2.5 * 0.2, v.z * 2.5⟩ : Vec3R)
          * INTERACTION_MAX_THROW_VELOCITY
          = u * (INTERACTION_MAX_THROW_VELOCITY
              / length3 (⟨v.x * 2.5, v.y * 2.5 * 0.2, v.z * 2.5⟩ : Vec3R)) := fun u => by ring
      rw [e (v.x * 2.5), e (v.y * 2.5 * 0.2), e (v.z * 2.5), length3_comp_smul, abs_div,
        abs_of_nonneg (show (0:ℝ) ≤ INTERACTION_MAX_THROW_VELOCITY by
          rw [INTERACTION_MAX_THROW_VELOCITY]; norm_num),
        abs_of_nonneg (length3_nonneg _), div_mul_cancel₀ _ hL]
    · exact not_lt.mp h
  · unfold length3
    rw [show ((1/5 : ℝ)) ^ 2 + (1/10) ^ 2 + (1/5) ^ 2 = (3/10) ^ 2 by norm_num,
      Real.sqrt_sq (by norm_num)]
  · rw [hval, hout, show (3/10 : ℝ) = Real.sqrt ((3/10) ^ 2) from
      (Real.sqrt_sq (by norm_num)).symm]
    exact Real.sqrt_le_sqrt (by norm_num)
  · rw [hval, hout, INTERACTION_MAX_THROW_VELOCITY]
    exact hsqrt_le
  · rw [hval]
    have h1 : |((⟨(1/2 : ℝ), 1/20, 1/2⟩ : Vec3R)).y| = Real.sqrt ((1/20) ^ 2) := by
      rw [Real.sqrt_sq (by norm_num)]
      simp
    rw [h1, show ((⟨(1/2 : ℝ), 1/20, 1/2⟩ : Vec3R)).x ^ 2
        + ((⟨(1/2 : ℝ), 1/20, 1/2⟩ : Vec3R)).z ^ 2 = (1/2 : ℝ) by norm_num]
    exact Real.sqrt_lt_sqrt (by norm_num) (by norm_num)

/-- The yaw angle extracted by `eulerYXZ_y` always lies in `(-π, π]` (both
branches are `atan2` values). -/
theorem eulerYXZ_y_mem_Ioc (q : Quat) : eulerYXZ_y q ∈ Set.Ioc (-Real.pi) Real.pi := by
  unfold eulerYXZ_y atan2
  split_ifs <;> exact Complex.arg_mem_Ioc _

/-- `setFromEuler` on `(0, y, 0)` gives the pure yaw quaternion. -/
theorem quatFromEulerYXZ_yaw (y : ℝ) :
    quatFromEulerYXZ 0 y 0 = ⟨0, Real.sin (y / 2), 0, Real.cos (y / 2)⟩ := by
  simp [quatFromEulerYXZ]

/-- Pitch extraction on a pure yaw quaternion yields 0. -/
theorem eulerYXZ_x_yawQuat (y : ℝ) :
    eulerYXZ_x ⟨0, Real.sin (y / 2), 0, Real.cos (y / 2)⟩ = 0 := by
  have hm23 : m23 ⟨0, Real.sin (y / 2), 0, Real.cos (y / 2)⟩ = 0 := by simp [m23]
  rw [eulerYXZ_x, hm23]
  norm_num [clampR, Real.arcsin_zero]

/-- Roll extraction on a pure yaw quaternion yields 0. -/
theorem eulerYXZ_z_yawQuat (y : ℝ) :
    eulerYXZ_z ⟨0, Real.sin (y / 2), 0, Real.cos (y / 2)⟩ = 0 := by
  have hm23 : m23 ⟨0, Real.sin (y / 2), 0, Real.cos (y / 2)⟩ = 0 := by simp [m23]
  have hm21 : m21 ⟨0, Real.sin (y / 2), 0, Real.cos (y / 2)⟩ = 0 := by simp [m21]
  have hm22 : m22 ⟨0, Real.sin (y / 2), 0, Real.cos (y / 2)⟩ = 1 := by simp [m22]
  rw [eulerYXZ_z, if_pos (by rw [hm23]; norm_num), hm21, hm22, atan2,
    show Complex.mk 1 0 = (1 : ℂ) by rw [Complex.mk_eq_add_mul_I]; simp]
  exact Complex.arg_one

/-- Yaw extraction on a pure yaw quaternion with `y ∈ (-π, π]` returns `y`. -/
theorem eulerYXZ_y_yawQuat (y : ℝ) (hy : y ∈ Set.Ioc (-Real.pi) Real.pi) :
    eulerYXZ_y ⟨0, Real.sin (y / 2), 0, Real.cos (y / 2)⟩ = y := by
  have hsin : Real.sin y = 2 * Real.sin (y / 2) * Real.cos (y / 2) := by
    rw [← Real.sin_two_mul]
    congr 1
    ring
  have hcos : Real.cos y = 1 - 2 * Real.sin (y / 2) ^ 2 := by
    have h1 := Real.cos_two_mul (y / 2)
    have h2 := Real.sin_sq_add_cos_sq (y / 2)
    have h3 : (2 : ℝ) * (y / 2) = y := by ring
    rw [h3] at h1
    linarith
  have hm23 : m23 ⟨0, Real.sin (y / 2), 0, Real.cos (y / 2)⟩ = 0 := by simp [m23]
  have hm13 : m13 ⟨0, Real.sin (y / 2), 0, Real.cos (y / 2)⟩ = Real.sin y := by
    simp [m13]
    rw [hsin]
    ring
  have hm33 : m33 ⟨0, Real.sin (y / 2), 0, Real.cos (y / 2)⟩ = Real.cos y := by
    simp [m33]
    rw [hcos]
  rw [eulerYXZ_y, if_pos (by rw [hm23]; norm_num), hm13, hm33, atan2,
    Complex.mk_eq_add_mul_I, Complex.ofReal_cos, Complex.ofReal_sin]
  exact Complex.arg_cos_add_sin_mul_I hy

/-- C4: the desktop orientation committed by `_createDesktop` retains only
the yaw of the detected surface orientation: its YXZ pitch and roll are both
zero (for every input quaternion, including any 30°-tilted one), and applying
the yaw extraction to the already-leveled orientation reproduces it
(leveling is idempotent). -/
theorem desktop_orientation_yaw_only (q : Quat) :
    eulerYXZ_x (forceHorizontalOrientation q) = 0 ∧
    eulerYXZ_z (forceHorizontalOrientation q) = 0 ∧
    forceHorizontalOrientation (forceHorizontalOrientation q) = forceHorizontalOrientation q ∧
    ∀ (position : Vec3R) (detectedSize : Option (ℝ × ℝ)),
      eulerYXZ_x (createDesktop position q detectedSize).quat = 0 ∧
      eulerYXZ_z (createDesktop position q detectedSize).quat = 0 := by
  have hQ : forceHorizontalOrientation q
      = ⟨0, Real.sin (eulerYXZ_y q / 2), 0, Real.cos (eulerYXZ_y q / 2)⟩ := by
    rw [forceHorizontalOrientation, quatFromEulerYXZ_yaw]
  have hx : eulerYXZ_x (forceHorizontalOrientation q) = 0 := by
    rw [hQ]
    exact eulerYXZ_x_yawQuat _
  have hz : eulerYXZ_z (forceHorizontalOrientation q) = 0 := by
    rw [hQ]
    exact eulerYXZ_z_yawQuat _
  refine ⟨hx, hz, ?_, ?_⟩
  · rw [hQ, forceHorizontalOrientation,
      eulerYXZ_y_yawQuat (eulerYXZ_y q) (eulerYXZ_y_mem_Ioc q), quatFromEulerYXZ_yaw]
  · intro position detectedSize
    have hpq : (createDesktop position q detectedSize).quat = forceHorizontalOrientation q := rfl
    rw [hpq]
    exact ⟨hx, hz⟩

end ARDesktop
